import Mathlib

/-
Verification development for the subscription-management REST API.

Modelling conventions:
- Instants (datetime values) are integers counting seconds since the Unix
  epoch, UTC.  Python timedelta(days = d) added to a datetime adds exactly
  d * 86400 seconds, so it is modelled by adding d * 86400.
- Enum values are the strings the source stores in status columns.
- Database tables are lists of records; SELECT ... LIMIT 1 is a find on
  the list in row order.
- Fallible route handlers return Except ApiError; a Python AttributeError
  raised by referencing a missing enum member is modelled by the
  attributeError constructor.
-/

/-- Subscription status strings shared by both model variants
(app.models.user_subscription.SubscriptionStatus).  The PAUSED member only
exists in the app variant of the enum; the CHANGED member only in the
src variant.  Neither variant declares a TRIALING member. -/
def SubscriptionStatus.ACTIVE : String := "active"

def SubscriptionStatus.CANCELED : String := "canceled"

def SubscriptionStatus.EXPIRED : String := "expired"

def SubscriptionStatus.PAST_DUE : String := "past_due"

def SubscriptionStatus.PENDING : String := "pending"

def SubscriptionStatus.TRIAL : String := "trial"

def SubscriptionStatus.CHANGED : String := "changed"

def SubscriptionStatus.PAUSED : String := "paused"

/-- Payment status strings (PaymentStatus enum).  Neither variant declares
a TRIAL member of PaymentStatus. -/
def PaymentStatus.PAID : String := "paid"

def PaymentStatus.PENDING : String := "pending"

def PaymentStatus.FAILED : String := "failed"

def PaymentStatus.REFUNDED : String := "refunded"

/-- Plan status strings (subscription_plan.PlanStatus). -/
def PlanStatus.ACTIVE : String := "active"

def PlanStatus.INACTIVE : String := "inactive"

def PlanStatus.DEPRECATED : String := "deprecated"

/-- Billing interval strings (subscription_plan.SubscriptionInterval). -/
def SubscriptionInterval.MONTHLY : String := "monthly"

def SubscriptionInterval.QUARTERLY : String := "quarterly"

def SubscriptionInterval.SEMI_ANNUAL : String := "semi-annual"

def SubscriptionInterval.ANNUAL : String := "annual"

/-- Seconds in one day, the factor for timedelta(days = d). -/
def secondsPerDay : Int := 86400

/-- Row of the subscription_plans table
(app.models.subscription_plan.SubscriptionPlan).  price is in cents to keep
the Numeric(10,2) column exact. -/
structure SubscriptionPlan where
  id : Nat
  name : String
  description : String
  price : Int
  interval : String
  duration_months : Int
  features : Option String
  status : String
  is_public : Bool
  max_users : Option Nat
  parent_id : Option Nat
  sort_order : Int
deriving DecidableEq, Repr

/-- Row of the user_subscriptions table
(app.models.user_subscription.UserSubscription).  Date columns are Option
when the column is nullable. -/
structure UserSubscription where
  id : Nat
  user_id : Nat
  plan_id : Nat
  status : String
  start_date : Int
  end_date : Option Int
  trial_end_date : Option Int
  canceled_at : Option Int
  current_period_start : Int
  current_period_end : Option Int
  payment_status : String
  quantity : Nat
  cancel_at_period_end : Bool
  auto_renew : Bool
  subscription_metadata : Option String
  created_at : Int
deriving DecidableEq, Repr

/-- In-process evaluation of the hybrid property is_active: status is
ACTIVE, start_date has passed and end_date is null or strictly in the
future.  Both model variants compute exactly this; the timezone
normalisation in the src variant is a no-op here because all instants are
UTC seconds. -/
def UserSubscription.is_active (s : UserSubscription) (now : Int) : Bool :=
  s.status == SubscriptionStatus.ACTIVE &&
    decide (s.start_date ≤ now) &&
    (match s.end_date with
     | none => true
     | some e => decide (now < e))

/-- Data-store filter expression for is_active, mirroring the SQLAlchemy
and_(status == ACTIVE, start_date <= now, or_(end_date == None,
end_date > now)) expression evaluated against the same clock. -/
def UserSubscription.is_active_expr (s : UserSubscription) (now : Int) : Bool :=
  s.status == SubscriptionStatus.ACTIVE &&
    decide (s.start_date ≤ now) &&
    (s.end_date.isNone ||
      (match s.end_date with
       | none => false
       | some e => decide (now < e)))

/-- In-process evaluation of the hybrid property is_trial: status is TRIAL
and trial_end_date is set and strictly in the future. -/
def UserSubscription.is_trial (s : UserSubscription) (now : Int) : Bool :=
  s.status == SubscriptionStatus.TRIAL &&
    (match s.trial_end_date with
     | none => false
     | some e => decide (now < e))

/-- UserSubscription.activate: force status to ACTIVE, nothing else. -/
def UserSubscription.activate (s : UserSubscription) : UserSubscription :=
  { s with status := SubscriptionStatus.ACTIVE }

/-- UserSubscription.cancel(at_period_end).  The at-period-end branch sets
only cancel_at_period_end and auto_renew (it does not touch canceled_at,
which the unit tests assert stays null); the immediate branch sets status,
canceled_at and end_date.  Identical in both model variants. -/
def UserSubscription.cancel (s : UserSubscription) (now : Int)
    (at_period_end : Bool) : UserSubscription :=
  if at_period_end then
    { s with cancel_at_period_end := true, auto_renew := false }
  else
    { s with status := SubscriptionStatus.CANCELED,
             canceled_at := some now,
             end_date := some now }

/-- UserSubscription.start_trial(trial_days): status to TRIAL and
trial_end_date to now + trial_days days, overwriting any prior value. -/
def UserSubscription.start_trial (s : UserSubscription) (now : Int)
    (trial_days : Int) : UserSubscription :=
  { s with status := SubscriptionStatus.TRIAL,
           trial_end_date := some (now + trial_days * secondsPerDay) }

/-- UserSubscription.renew(days): reset the billing period to
[now, now + days days], force status to ACTIVE if it is not, and pull
end_date up to the new period end when it precedes it. -/
def UserSubscription.renew (s : UserSubscription) (now : Int)
    (days : Int) : UserSubscription :=
  let cpe : Int := now + days * secondsPerDay
  let s1 : UserSubscription :=
    { s with current_period_start := now, current_period_end := some cpe }
  let s2 : UserSubscription :=
    if s1.status ≠ SubscriptionStatus.ACTIVE then
      { s1 with status := SubscriptionStatus.ACTIVE }
    else s1
  match s2.end_date with
  | some e => if e < cpe then { s2 with end_date := some cpe } else s2
  | none => s2

/-- UserSubscription.expire, app model variant: status to EXPIRED and
end_date to now. -/
def UserSubscription.expire (s : UserSubscription) (now : Int) :
    UserSubscription :=
  { s with status := SubscriptionStatus.EXPIRED, end_date := some now }

/-- UserSubscription.expire, src model variant: additionally clears
auto_renew. -/
def UserSubscription.expire_v1 (s : UserSubscription) (now : Int) :
    UserSubscription :=
  { s with status := SubscriptionStatus.EXPIRED,
           end_date := some now,
           auto_renew := false }

/-- UserSubscription.pause: status to PAUSED, nothing else.  (In the src
model variant the PAUSED enum member is missing so the method raises
before assigning; no field changes in that variant either.) -/
def UserSubscription.pause (s : UserSubscription) : UserSubscription :=
  { s with status := SubscriptionStatus.PAUSED }

/-- UserSubscription.resume: status to ACTIVE, clear cancel_at_period_end,
set auto_renew. -/
def UserSubscription.resume (s : UserSubscription) : UserSubscription :=
  { s with status := SubscriptionStatus.ACTIVE,
           cancel_at_period_end := false,
           auto_renew := true }

/-- UserSubscription.update_payment_status: store the new payment status
and, when it is FAILED, force subscription status to PAST_DUE. -/
def UserSubscription.update_payment_status (s : UserSubscription)
    (status : String) : UserSubscription :=
  let s1 : UserSubscription := { s with payment_status := status }
  if status == PaymentStatus.FAILED then
    { s1 with status := SubscriptionStatus.PAST_DUE }
  else s1

/-- UserSubscription.change_plan: reassign plan_id only (proration is a
stated TODO in the source and changes nothing). -/
def UserSubscription.change_plan (s : UserSubscription)
    (new_plan_id : Nat) : UserSubscription :=
  { s with plan_id := new_plan_id }

/-- SubscriptionPlan.query.get(id): first row with the given primary key. -/
def planFind (plans : List SubscriptionPlan) (id : Nat) :
    Option SubscriptionPlan :=
  plans.find? (fun p => p.id == id)

/-- UserSubscription.query.filter_by(user_id, status = ACTIVE).first():
the duplicate check and active lookup all three route versions use.  It
looks only at the stored status column. -/
def findActiveSub (subs : List UserSubscription) (uid : Nat) :
    Option UserSubscription :=
  subs.find? (fun s => s.user_id == uid &&
    s.status == SubscriptionStatus.ACTIVE)

/-- WHERE clause of the first raw-SQL query in
get_user_active_subscription: user, stored ACTIVE status and the date
conditions of is_active. -/
def activeRowFilter (uid : Nat) (now : Int) (s : UserSubscription) : Bool :=
  s.user_id == uid &&
    s.status == SubscriptionStatus.ACTIVE &&
    decide (s.start_date ≤ now) &&
    (match s.end_date with
     | none => true
     | some e => decide (now < e))

/-- WHERE clause of the fallback raw-SQL query in
get_user_active_subscription: user, stored TRIAL status, trial_end_date
set and still in the future. -/
def trialRowFilter (uid : Nat) (now : Int) (s : UserSubscription) : Bool :=
  s.user_id == uid &&
    s.status == SubscriptionStatus.TRIAL &&
    (match s.trial_end_date with
     | none => false
     | some e => decide (now < e))

/-- One row of the JOIN with subscription_plans: the row passes the filter
and its plan exists; LIMIT 1 takes the first such row. -/
def joinFirst (subs : List UserSubscription) (plans : List SubscriptionPlan)
    (filter : UserSubscription → Bool) :
    Option (UserSubscription × SubscriptionPlan) :=
  subs.findSome? (fun s =>
    if filter s then (planFind plans s.plan_id).map (fun p => (s, p))
    else none)

/-- app.utils.sql_optimizations.get_user_active_subscription: the ACTIVE
query with date conditions joined with the plan, falling back to the
valid-trial query, returning none when neither matches.  The model
classmethod UserSubscription.get_active_subscription in the src variant
runs the same two filters in the same order. -/
def get_user_active_subscription (subs : List UserSubscription)
    (plans : List SubscriptionPlan) (uid : Nat) (now : Int) :
    Option (UserSubscription × SubscriptionPlan) :=
  match joinFirst subs plans (activeRowFilter uid now) with
  | some r => some r
  | none => joinFirst subs plans (trialRowFilter uid now)

/-- Errors a route handler can finish with.  notFound models
get_or_404 / first_or_404 / abort(404), badRequest models the 400
responses, attributeError models a Python AttributeError raised by
referencing an enum member that does not exist (the request dies with a
500 and nothing is committed). -/
inductive ApiError where
  | notFound : String → ApiError
  | badRequest : String → ApiError
  | attributeError : String → ApiError
deriving DecidableEq, Repr

def msgInactivePlanV1 : String := "Cannot subscribe to inactive plan"

def msgDuplicateV1 : String := "User already has an active subscription"

def msgInactivePlanV2 : String := "Cannot subscribe to an inactive plan"

def msgDuplicateV2 : String :=
  "User already has an active subscription. Please cancel or upgrade it instead."

def msgPlanNotFound : String := "Plan not found"

def msgUserNotFound : String := "User not found"

def msgPlanNotFoundOrInactive : String := "Plan not found or is not active"

def msgNoActiveSubscription : String := "No active subscription found"

def msgSamePlan : String := "Already subscribed to this plan"

def msgDeleteWithActive : String :=
  "Cannot delete plan with active subscriptions. Deactivate it instead."

def msgMissingPaymentStatusTRIAL : String :=
  "type object PaymentStatus has no attribute TRIAL"

def msgMissingSubscriptionStatusTRIALING : String :=
  "type object SubscriptionStatus has no attribute TRIALING"

/-- Period length in days chosen from the plan interval by the v1 route:
default 30, annual 365, semi-annual 182, quarterly 90, monthly keeps the
default. -/
def interval_period_days (interval : String) : Int :=
  if interval == SubscriptionInterval.ANNUAL then 365
  else if interval == SubscriptionInterval.SEMI_ANNUAL then 182
  else if interval == SubscriptionInterval.QUARTERLY then 90
  else 30

/-- V1 UserSubscriptionList.post (src variant): plan must exist and be
active, the user must have no stored-ACTIVE subscription, then a
subscription is created with status ACTIVE unconditionally.  The payment
status expression PaymentStatus.PAID.value if not trial_days else
PaymentStatus.TRIAL.value evaluates PaymentStatus.TRIAL for every nonzero
trial_days, and that enum member does not exist, so those requests raise
AttributeError. -/
def subscribeV1 (plans : List SubscriptionPlan)
    (subs : List UserSubscription) (uid plan_id : Nat) (trial_days : Int)
    (quantity : Nat) (auto_renew : Bool) (now : Int) (newId : Nat) :
    Except ApiError UserSubscription :=
  match planFind plans plan_id with
  | none => .error (.notFound msgPlanNotFound)
  | some plan =>
    if plan.status ≠ PlanStatus.ACTIVE then
      .error (.badRequest msgInactivePlanV1)
    else if (findActiveSub subs uid).isSome then
      .error (.badRequest msgDuplicateV1)
    else
      let trial_end_date : Option Int :=
        if 0 < trial_days then some (now + trial_days * secondsPerDay)
        else none
      let period_end : Int :=
        now + interval_period_days plan.interval * secondsPerDay
      if trial_days = 0 then
        .ok { id := newId, user_id := uid, plan_id := plan.id,
              status := SubscriptionStatus.ACTIVE,
              start_date := now, end_date := none,
              trial_end_date := trial_end_date, canceled_at := none,
              current_period_start := now,
              current_period_end := some period_end,
              payment_status := PaymentStatus.PAID,
              quantity := quantity, cancel_at_period_end := false,
              auto_renew := auto_renew, subscription_metadata := none,
              created_at := now }
      else .error (.attributeError msgMissingPaymentStatusTRIAL)

/-- Calendar instant, for the V2 route which builds the subscription end
date with datetime(year, month, day, ...) arithmetic. -/
structure PyDateTime where
  year : Int
  month : Int
  day : Int
  hour : Int
  minute : Int
  second : Int
deriving DecidableEq, Repr

/-- Days since the Unix epoch of a civil date, the standard era-based
Gregorian conversion. -/
def daysFromCivil (y m d : Int) : Int :=
  let y1 : Int := if m ≤ 2 then y - 1 else y
  let era : Int := (if 0 ≤ y1 then y1 else y1 - 399) / 400
  let yoe : Int := y1 - era * 400
  let mp : Int := if 2 < m then m - 3 else m + 9
  let doy : Int := (153 * mp + 2) / 5 + d - 1
  let doe : Int := yoe * 365 + yoe / 4 - yoe / 100 + doy
  era * 146097 + doe - 719468

/-- Epoch seconds of a calendar instant. -/
def PyDateTime.toEpoch (t : PyDateTime) : Int :=
  daysFromCivil t.year t.month t.day * secondsPerDay +
    t.hour * 3600 + t.minute * 60 + t.second

/-- End-date computation of the V2 route: month = now.month - 1 +
duration_months, year advanced by month // 12, month wrapped to
month % 12 + 1, day clamped to 28, time of day kept. -/
def calendarPeriodEnd (now : PyDateTime) (duration_months : Int) :
    PyDateTime :=
  let m0 : Int := now.month - 1 + duration_months
  { year := now.year + m0.fdiv 12,
    month := m0.emod 12 + 1,
    day := min now.day 28,
    hour := now.hour, minute := now.minute, second := now.second }

/-- V2 (unversioned) UserSubscriptionList.post: plan must exist and be
active, the user record must exist, the user must have no stored-ACTIVE
subscription.  end_date and current_period_end come from calendar-month
arithmetic on duration_months (indefinite when duration_months is 0);
trial_days > 0 switches status to TRIAL and sets trial_end_date, and
payment_status is PAID in every case. -/
def subscribeV2 (plans : List SubscriptionPlan)
    (subs : List UserSubscription) (users : List Nat) (uid plan_id : Nat)
    (trial_days : Int) (quantity : Nat) (auto_renew : Bool)
    (now : PyDateTime) (newId : Nat) : Except ApiError UserSubscription :=
  match planFind plans plan_id with
  | none => .error (.notFound msgPlanNotFound)
  | some plan =>
    if plan.status ≠ PlanStatus.ACTIVE then
      .error (.badRequest msgInactivePlanV2)
    else if ¬ users.contains uid then
      .error (.notFound msgUserNotFound)
    else if (findActiveSub subs uid).isSome then
      .error (.badRequest msgDuplicateV2)
    else
      let epochNow : Int := now.toEpoch
      let end_date : Option Int :=
        if plan.duration_months ≠ 0 then
          some (calendarPeriodEnd now plan.duration_months).toEpoch
        else none
      let isTrial : Bool := decide (0 < trial_days)
      .ok { id := newId, user_id := uid, plan_id := plan.id,
            status := if isTrial then SubscriptionStatus.TRIAL
                      else SubscriptionStatus.ACTIVE,
            start_date := epochNow, end_date := end_date,
            trial_end_date :=
              if isTrial then some (epochNow + trial_days * secondsPerDay)
              else none,
            canceled_at := none,
            current_period_start := epochNow,
            current_period_end := end_date,
            payment_status := PaymentStatus.PAID,
            quantity := quantity, cancel_at_period_end := false,
            auto_renew := auto_renew, subscription_metadata := none,
            created_at := epochNow }

/-- V2 SubscriptionPlanResource.delete: 404 when the plan is absent, 400
without deleting when some subscription referencing the plan has stored
status ACTIVE, otherwise the plan row is removed. -/
def planDeleteV2 (plans : List SubscriptionPlan)
    (subs : List UserSubscription) (id : Nat) :
    Except ApiError (List SubscriptionPlan) :=
  match planFind plans id with
  | none => .error (.notFound msgPlanNotFound)
  | some _ =>
    if (subs.find? (fun s => s.plan_id == id &&
        s.status == SubscriptionStatus.ACTIVE)).isSome then
      .error (.badRequest msgDeleteWithActive)
    else
      .ok (plans.filter (fun p => p.id ≠ id))

/-- A TTL cache entry: the cached data and its absolute expiry instant
(stored timestamp + the 300 second TTL). -/
structure CacheEntry (α : Type) where
  data : α
  expires_at : Int
deriving DecidableEq, Repr

/-- The module-level mutable state of the V3 routes: the two database
tables, the three in-process cache dictionaries, and the id counters the
store assigns to new rows.  Dictionaries are association lists with unique
keys maintained by replacement on write. -/
structure V3State where
  subs : List UserSubscription
  plans : List SubscriptionPlan
  subscription_cache : List (Nat × CacheEntry UserSubscription)
  history_cache : List ((Nat × String) × CacheEntry (List UserSubscription))
  plan_list_cache : List (String × CacheEntry (List SubscriptionPlan))
  nextSubId : Nat
  nextPlanId : Nat
deriving DecidableEq, Repr

/-- Dictionary write: replace any previous entry under the key. -/
def dictSet (c : List (Nat × CacheEntry UserSubscription)) (k : Nat)
    (v : CacheEntry UserSubscription) :
    List (Nat × CacheEntry UserSubscription) :=
  (k, v) :: c.filter (fun e => e.1 ≠ k)

/-- get_cached_active_subscription: return the entry for the user when it
exists and has not expired; expired entries are ignored (this getter does
not delete them). -/
def get_cached_active_subscription
    (c : List (Nat × CacheEntry UserSubscription)) (uid : Nat)
    (now : Int) : Option UserSubscription :=
  match c.find? (fun e => e.1 == uid) with
  | some (_, entry) => if now < entry.expires_at then some entry.data else none
  | none => none

/-- cache_active_subscription: store the subscription under the user id
with expiry now + CACHE_TTL (300 seconds). -/
def cache_active_subscription
    (c : List (Nat × CacheEntry UserSubscription)) (uid : Nat)
    (sub : UserSubscription) (now : Int) :
    List (Nat × CacheEntry UserSubscription) :=
  dictSet c uid { data := sub, expires_at := now + 300 }

/-- invalidate_subscription_cache: drop the entry for the user. -/
def invalidate_subscription_cache
    (c : List (Nat × CacheEntry UserSubscription)) (uid : Nat) :
    List (Nat × CacheEntry UserSubscription) :=
  c.filter (fun e => e.1 ≠ uid)

/-- invalidate_subscription_history_cache(user_id): drop every history
entry whose key starts with this user (keys are modelled as the pair of
the user id and the rest of the key string). -/
def invalidate_subscription_history_cache
    (c : List ((Nat × String) × CacheEntry (List UserSubscription)))
    (uid : Nat) :
    List ((Nat × String) × CacheEntry (List UserSubscription)) :=
  c.filter (fun e => e.1.1 ≠ uid)

/-- get_cached_plan_list: return the unexpired entry for the key, deleting
it when present but expired (the source deletes stale paginated entries on
read).  Returns the result and the updated dictionary. -/
def get_cached_plan_list
    (c : List (String × CacheEntry (List SubscriptionPlan))) (key : String)
    (now : Int) :
    Option (List SubscriptionPlan) ×
      List (String × CacheEntry (List SubscriptionPlan)) :=
  match c.find? (fun e => e.1 == key) with
  | some (_, entry) =>
    if now < entry.expires_at then (some entry.data, c)
    else (none, c.filter (fun e => e.1 ≠ key))
  | none => (none, c)

/-- invalidate_plan_list_cache: clear the whole dictionary. -/
def invalidate_plan_list_cache
    (_c : List (String × CacheEntry (List SubscriptionPlan))) :
    List (String × CacheEntry (List SubscriptionPlan)) := []

/-- V3 UserSubscriptionList.post: plan looked up by id and ACTIVE status
in one 404-raising query, stored-ACTIVE duplicate check, then the
subscription is built.  For trial_days > 0 the handler evaluates
SubscriptionStatus.TRIALING, which does not exist, so the request raises
AttributeError before anything is written.  Otherwise the period runs
30 * duration_months days, quantity and the remaining nullable columns
keep their column defaults (the handler passes neither quantity,
end_date nor trial_end_date), and both per-user caches are invalidated
after the commit and before the response is returned. -/
def subscribeV3 (st : V3State) (uid plan_id : Nat) (trial_days : Int)
    (auto_renew : Bool) (now : Int) :
    Except ApiError (UserSubscription × V3State) :=
  match st.plans.find? (fun p => p.id == plan_id &&
      p.status == PlanStatus.ACTIVE) with
  | none => .error (.notFound msgPlanNotFoundOrInactive)
  | some plan =>
    if (findActiveSub st.subs uid).isSome then
      .error (.badRequest msgDuplicateV1)
    else if 0 < trial_days then
      .error (.attributeError msgMissingSubscriptionStatusTRIALING)
    else
      let sub : UserSubscription :=
        { id := st.nextSubId, user_id := uid, plan_id := plan.id,
          status := SubscriptionStatus.ACTIVE,
          start_date := now, end_date := none, trial_end_date := none,
          canceled_at := none, current_period_start := now,
          current_period_end :=
            some (now + 30 * plan.duration_months * secondsPerDay),
          payment_status :=
            if trial_days = 0 then PaymentStatus.PAID
            else PaymentStatus.PENDING,
          quantity := 1, cancel_at_period_end := false,
          auto_renew := auto_renew, subscription_metadata := none,
          created_at := now }
      .ok (sub,
        { st with subs := st.subs ++ [sub],
                  nextSubId := st.nextSubId + 1,
                  subscription_cache :=
                    invalidate_subscription_cache st.subscription_cache uid,
                  history_cache :=
                    invalidate_subscription_history_cache st.history_cache
                      uid })

/-- Replace the row with the given id. -/
def replaceSub (subs : List UserSubscription) (s : UserSubscription) :
    List UserSubscription :=
  subs.map (fun t => if t.id == s.id then s else t)

/-- V3 SubscriptionUpgrade.post: stored-ACTIVE subscription looked up with
404, target plan looked up by id and ACTIVE status with 404, same-plan
check, then only plan_id is reassigned and both per-user caches are
invalidated before returning. -/
def upgradeV3 (st : V3State) (uid new_plan_id : Nat) :
    Except ApiError (UserSubscription × V3State) :=
  match findActiveSub st.subs uid with
  | none => .error (.notFound msgNoActiveSubscription)
  | some s =>
    match st.plans.find? (fun p => p.id == new_plan_id &&
        p.status == PlanStatus.ACTIVE) with
    | none => .error (.notFound msgPlanNotFoundOrInactive)
    | some plan =>
      if s.plan_id == plan.id then
        .error (.badRequest msgSamePlan)
      else
        let updated : UserSubscription := { s with plan_id := plan.id }
        .ok (updated,
          { st with subs := replaceSub st.subs updated,
                    subscription_cache :=
                      invalidate_subscription_cache st.subscription_cache
                        uid,
                    history_cache :=
                      invalidate_subscription_history_cache
                        st.history_cache uid })

/-- V3 SubscriptionCancel.post: stored-ACTIVE subscription looked up with
404.  At period end it sets cancel_at_period_end and canceled_at (leaving
auto_renew and status untouched); immediately it sets status CANCELED,
canceled_at and end_date.  Both per-user caches are invalidated before
returning. -/
def cancelV3 (st : V3State) (uid : Nat) (at_period_end : Bool)
    (now : Int) : Except ApiError (UserSubscription × V3State) :=
  match findActiveSub st.subs uid with
  | none => .error (.notFound msgNoActiveSubscription)
  | some s =>
    let updated : UserSubscription :=
      if at_period_end then
        { s with cancel_at_period_end := true, canceled_at := some now }
      else
        { s with status := SubscriptionStatus.CANCELED,
                 canceled_at := some now, end_date := some now }
    .ok (updated,
      { st with subs := replaceSub st.subs updated,
                subscription_cache :=
                  invalidate_subscription_cache st.subscription_cache uid,
                history_cache :=
                  invalidate_subscription_history_cache st.history_cache
                    uid })

/-- V3 ActiveSubscription.get: serve the unexpired cache entry when there
is one; otherwise look up the stored-ACTIVE subscription (no date
conditions, no trial fallback), 404 when absent, caching the hit. -/
def activeGetV3 (st : V3State) (uid : Nat) (now : Int) :
    Except ApiError (UserSubscription × V3State) :=
  match get_cached_active_subscription st.subscription_cache uid now with
  | some sub => .ok (sub, st)
  | none =>
    match findActiveSub st.subs uid with
    | none => .error (.notFound msgNoActiveSubscription)
    | some sub =>
      .ok (sub,
        { st with subscription_cache :=
            cache_active_subscription st.subscription_cache uid sub now })

/-- Field updates of the V3 plan PUT body: data.get(key, old) for every
column. -/
structure PlanUpdate where
  name : Option String
  description : Option String
  price : Option Int
  interval : Option String
  duration_months : Option Int
  features : Option String
  status : Option String
  is_public : Option Bool
  max_users : Option Nat
  parent_id : Option Nat
  sort_order : Option Int
deriving DecidableEq, Repr

/-- Apply a PUT body to a plan row: each column keeps its old value when
the body omits it. -/
def applyPlanUpdate (p : SubscriptionPlan) (u : PlanUpdate) :
    SubscriptionPlan :=
  { p with name := u.name.getD p.name,
           description := u.description.getD p.description,
           price := u.price.getD p.price,
           interval := u.interval.getD p.interval,
           duration_months := u.duration_months.getD p.duration_months,
           features := match u.features with
                       | some f => some f
                       | none => p.features,
           status := u.status.getD p.status,
           is_public := u.is_public.getD p.is_public,
           max_users := match u.max_users with
                        | some m => some m
                        | none => p.max_users,
           parent_id := match u.parent_id with
                        | some q => some q
                        | none => p.parent_id,
           sort_order := u.sort_order.getD p.sort_order }

/-- Column data of a new plan in the V3 plan POST body. -/
structure PlanCreate where
  name : String
  description : String
  price : Int
  interval : String
  duration_months : Int
  features : Option String
  status : String
  is_public : Bool
  max_users : Option Nat
  parent_id : Option Nat
  sort_order : Int
deriving DecidableEq, Repr

/-- V3 SubscriptionPlanList.post: insert the new plan row and clear the
plan-list cache before returning. -/
def planCreateV3 (st : V3State) (b : PlanCreate) :
    SubscriptionPlan × V3State :=
  let plan : SubscriptionPlan :=
    { id := st.nextPlanId, name := b.name, description := b.description,
      price := b.price, interval := b.interval,
      duration_months := b.duration_months, features := b.features,
      status := b.status, is_public := b.is_public,
      max_users := b.max_users, parent_id := b.parent_id,
      sort_order := b.sort_order }
  (plan,
    { st with plans := st.plans ++ [plan],
              nextPlanId := st.nextPlanId + 1,
              plan_list_cache :=
                invalidate_plan_list_cache st.plan_list_cache })

/-- V3 SubscriptionPlanResource.put: 404 when the plan is absent, apply
the body, clear the plan-list cache before returning. -/
def planUpdateV3 (st : V3State) (id : Nat) (u : PlanUpdate) :
    Except ApiError (SubscriptionPlan × V3State) :=
  match planFind st.plans id with
  | none => .error (.notFound msgPlanNotFound)
  | some p =>
    let updated : SubscriptionPlan := applyPlanUpdate p u
    .ok (updated,
      { st with plans :=
                  st.plans.map (fun q => if q.id == id then updated else q),
                plan_list_cache :=
                  invalidate_plan_list_cache st.plan_list_cache })

/-- V3 SubscriptionPlanResource.delete: 404 when the plan is absent,
otherwise the plan row is removed unconditionally, with no check of the
subscriptions referencing it, and the plan-list cache is cleared before
returning. -/
def planDeleteV3 (st : V3State) (id : Nat) : Except ApiError V3State :=
  match planFind st.plans id with
  | none => .error (.notFound msgPlanNotFound)
  | some _ =>
    .ok { st with plans := st.plans.filter (fun p => p.id ≠ id),
                  plan_list_cache :=
                    invalidate_plan_list_cache st.plan_list_cache }

/-- A stored-ACTIVE subscription row used as a concrete base sample. -/
def subBase : UserSubscription :=
  { id := 1, user_id := 1, plan_id := 1,
    status := SubscriptionStatus.ACTIVE, start_date := 0,
    end_date := none, trial_end_date := none, canceled_at := none,
    current_period_start := 0, current_period_end := some 2592000,
    payment_status := PaymentStatus.PAID, quantity := 1,
    cancel_at_period_end := false, auto_renew := true,
    subscription_metadata := none, created_at := 0 }

/-- A valid TRIAL subscription row (trial_end_date in the future of the
sample instant 1000). -/
def trialSub : UserSubscription :=
  { subBase with id := 2, status := SubscriptionStatus.TRIAL,
                 trial_end_date := some 2000,
                 payment_status := PaymentStatus.PENDING }

/-- A concrete active monthly plan. -/
def planMonthly : SubscriptionPlan :=
  { id := 1, name := "Basic", description := "Basic plan", price := 999,
    interval := SubscriptionInterval.MONTHLY, duration_months := 1,
    features := none, status := PlanStatus.ACTIVE, is_public := true,
    max_users := none, parent_id := none, sort_order := 0 }

/-- A concrete active annual plan with duration_months 12. -/
def planAnnual : SubscriptionPlan :=
  { planMonthly with id := 2, name := "Annual",
                     interval := SubscriptionInterval.ANNUAL,
                     duration_months := 12 }

/-- A concrete calendar instant for the V2 route samples. -/
def nowDT : PyDateTime :=
  { year := 2025, month := 1, day := 15, hour := 0, minute := 0,
    second := 0 }

/-- Concrete V3 state: one stored-ACTIVE subscription of user 1 on
plan 1, both sample plans, empty caches. -/
def stEx : V3State :=
  { subs := [subBase], plans := [planMonthly, planAnnual],
    subscription_cache := [], history_cache := [], plan_list_cache := [],
    nextSubId := 3, nextPlanId := 3 }

/-- Concrete V3 state where user 1 holds only a valid TRIAL
subscription. -/
def stTrial : V3State := { stEx with subs := [trialSub] }

/-- Concrete V3 state with warm cache entries for user 1 and for the plan
list. -/
def stCached : V3State :=
  { stEx with
      subscription_cache := [(1, { data := subBase, expires_at := 10000 })],
      history_cache :=
        [((1, "page=1"), { data := [subBase], expires_at := 10000 })],
      plan_list_cache :=
        [("page=1", { data := [planMonthly], expires_at := 10000 })] }

/-- Expected row after cancelV3 at period end at instant 500. -/
def subCanceledPE : UserSubscription :=
  { subBase with cancel_at_period_end := true, canceled_at := some 500 }

/-- Expected state after cancelV3 on stCached: row updated, both per-user
caches dropped, plan-list cache untouched. -/
def stCancelResult : V3State :=
  { stCached with subs := [subCanceledPE], subscription_cache := [],
                  history_cache := [] }

/-- A concrete plan POST body. -/
def planCreateBody : PlanCreate :=
  { name := "New", description := "New plan", price := 500,
    interval := SubscriptionInterval.MONTHLY, duration_months := 1,
    features := none, status := PlanStatus.ACTIVE, is_public := true,
    max_users := none, parent_id := none, sort_order := 1 }

/-- A concrete empty plan PUT body. -/
def planUpdateBody : PlanUpdate :=
  { name := none, description := none, price := none, interval := none,
    duration_months := none, features := none, status := none,
    is_public := none, max_users := none, parent_id := none,
    sort_order := none }

/-- Equality of the lifecycle frame: the fields C10 requires untouched. -/
def lifecycleCore (a b : UserSubscription) : Prop :=
  a.user_id = b.user_id ∧ a.plan_id = b.plan_id ∧
  a.start_date = b.start_date ∧ a.quantity = b.quantity ∧
  a.subscription_metadata = b.subscription_metadata

/-- Both per-user cache dictionaries of the V3 state hold no entry keyed
by the user. -/
def userCachesCleared (st : V3State) (uid : Nat) : Prop :=
  (∀ e ∈ st.subscription_cache, e.1 ≠ uid) ∧
  (∀ e ∈ st.history_cache, e.1.1 ≠ uid)

/-- The subscription row a successful non-trial V1 subscribe on the
monthly plan at instant 1000 produces. -/
def subV1New : UserSubscription :=
  { id := 10, user_id := 1, plan_id := 1,
    status := SubscriptionStatus.ACTIVE, start_date := 1000,
    end_date := none, trial_end_date := none, canceled_at := none,
    current_period_start := 1000,
    current_period_end := some (1000 + 30 * secondsPerDay),
    payment_status := PaymentStatus.PAID, quantity := 1,
    cancel_at_period_end := false, auto_renew := true,
    subscription_metadata := none, created_at := 1000 }

/-- The database-only path of the V3 active-subscription read: look up
the stored-ACTIVE row, 404 when absent, cache the hit. -/
def activeGetFresh (st : V3State) (uid : Nat) (t : Int) :
    Except ApiError (UserSubscription × V3State) :=
  match findActiveSub st.subs uid with
  | none => .error (.notFound msgNoActiveSubscription)
  | some sub =>
    .ok (sub, { st with subscription_cache :=
      cache_active_subscription st.subscription_cache uid sub t })

-- Decidable equality of handler results, for concrete evaluation.
deriving instance DecidableEq for Except

/-- C1: is_active(S) holds iff status is ACTIVE, start_date has passed and
end_date is null or strictly later than now; a subscription whose end_date
equals now is inactive while one ending one second later is active (when
the other conjuncts hold), and the in-process evaluation agrees with the
data-store filter expression evaluated at the same instant. -/
theorem c1_is_active_spec (s : UserSubscription) (now : Int) :
    (UserSubscription.is_active s now = true ↔
      (s.status = SubscriptionStatus.ACTIVE ∧ s.start_date ≤ now ∧
        (s.end_date = none ∨ ∃ e, s.end_date = some e ∧ now < e))) ∧
    UserSubscription.is_active s now =
      UserSubscription.is_active_expr s now ∧
    UserSubscription.is_active { s with end_date := some now } now =
      false ∧
    UserSubscription.is_active
      { s with status := SubscriptionStatus.ACTIVE,
               end_date := some (now + 1) } now =
      decide (s.start_date ≤ now) := by
  refine ⟨?_, ?_, ?_, ?_⟩
  · cases h : s.end_date <;>
      simp [UserSubscription.is_active, h, and_assoc]
  · cases h : s.end_date <;>
      simp [UserSubscription.is_active, UserSubscription.is_active_expr, h]
  · simp [UserSubscription.is_active]
  · simp [UserSubscription.is_active, Int.lt_add_one_iff]

theorem activate_core (s : UserSubscription) :
    lifecycleCore s.activate s :=
  ⟨rfl, rfl, rfl, rfl, rfl⟩

theorem cancel_core (s : UserSubscription) (now : Int) (ape : Bool) :
    lifecycleCore (s.cancel now ape) s := by
  unfold UserSubscription.cancel lifecycleCore
  split <;> exact ⟨rfl, rfl, rfl, rfl, rfl⟩

theorem start_trial_core (s : UserSubscription) (now td : Int) :
    lifecycleCore (s.start_trial now td) s :=
  ⟨rfl, rfl, rfl, rfl, rfl⟩

theorem renew_core (s : UserSubscription) (now days : Int) :
    lifecycleCore (s.renew now days) s := by
  simp only [UserSubscription.renew, lifecycleCore]
  split_ifs <;> cases h : s.end_date <;> simp only [h] <;>
    (try split_ifs) <;> simp

theorem expire_core (s : UserSubscription) (now : Int) :
    lifecycleCore (s.expire now) s :=
  ⟨rfl, rfl, rfl, rfl, rfl⟩

theorem expire_v1_core (s : UserSubscription) (now : Int) :
    lifecycleCore (s.expire_v1 now) s :=
  ⟨rfl, rfl, rfl, rfl, rfl⟩

theorem pause_core (s : UserSubscription) :
    lifecycleCore s.pause s :=
  ⟨rfl, rfl, rfl, rfl, rfl⟩

theorem resume_core (s : UserSubscription) :
    lifecycleCore s.resume s :=
  ⟨rfl, rfl, rfl, rfl, rfl⟩

theorem update_payment_status_core (s : UserSubscription) (ps : String) :
    lifecycleCore (s.update_payment_status ps) s := by
  unfold UserSubscription.update_payment_status lifecycleCore
  split <;> exact ⟨rfl, rfl, rfl, rfl, rfl⟩

/-- C10: every lifecycle transition (activate, cancel in both branches,
start_trial, renew, expire in both model variants, pause, resume,
update_payment_status) leaves user_id, plan_id, start_date, quantity and
subscription_metadata unchanged, and change_plan changes only plan_id,
leaving every other field of the subscription unchanged. -/
theorem c10_lifecycle_frame (s : UserSubscription)
    (now days trial_days : Int) (ps : String) (pid : Nat) (ape : Bool) :
    lifecycleCore s.activate s ∧
    lifecycleCore (s.cancel now ape) s ∧
    lifecycleCore (s.start_trial now trial_days) s ∧
    lifecycleCore (s.renew now days) s ∧
    lifecycleCore (s.expire now) s ∧
    lifecycleCore (s.expire_v1 now) s ∧
    lifecycleCore s.pause s ∧
    lifecycleCore s.resume s ∧
    lifecycleCore (s.update_payment_status ps) s ∧
    (s.change_plan pid).plan_id = pid ∧
    (s.change_plan pid).id = s.id ∧
    (s.change_plan pid).user_id = s.user_id ∧
    (s.change_plan pid).status = s.status ∧
    (s.change_plan pid).start_date = s.start_date ∧
    (s.change_plan pid).end_date = s.end_date ∧
    (s.change_plan pid).trial_end_date = s.trial_end_date ∧
    (s.change_plan pid).canceled_at = s.canceled_at ∧
    (s.change_plan pid).current_period_start = s.current_period_start ∧
    (s.change_plan pid).current_period_end = s.current_period_end ∧
    (s.change_plan pid).payment_status = s.payment_status ∧
    (s.change_plan pid).quantity = s.quantity ∧
    (s.change_plan pid).cancel_at_period_end = s.cancel_at_period_end ∧
    (s.change_plan pid).auto_renew = s.auto_renew ∧
    (s.change_plan pid).subscription_metadata =
      s.subscription_metadata ∧
    (s.change_plan pid).created_at = s.created_at :=
  ⟨activate_core s, cancel_core s now ape, start_trial_core s now
      trial_days,
    renew_core s now days, expire_core s now, expire_v1_core s now,
    pause_core s, resume_core s, update_payment_status_core s ps,
    rfl, rfl, rfl, rfl, rfl, rfl, rfl, rfl, rfl, rfl, rfl, rfl, rfl,
    rfl, rfl, rfl⟩

/-- C5 counterexample: the model-level cancel(at_period_end = true) sets
cancel_at_period_end and clears auto_renew but leaves canceled_at null,
so the claimed conjunct canceled_at = now fails on this concrete call
(the unit test test_cancel_subscription asserts exactly this null). -/
theorem c5_counterexample :
    (subBase.cancel 500 true).cancel_at_period_end = true ∧
    (subBase.cancel 500 true).auto_renew = false ∧
    (subBase.cancel 500 true).canceled_at = none := by decide

/-- C5 (amended): the model cancel(atPeriodEnd = true) sets
cancel_at_period_end = true and auto_renew = false, leaving canceled_at,
status and end_date unchanged; the V3 route instead sets
cancel_at_period_end = true and canceled_at = now, leaving auto_renew and
status unchanged; both immediate variants set status = CANCELED,
canceled_at = now and end_date = now. -/
theorem c5_cancel_spec (s : UserSubscription) (now : Int) (st : V3State)
    (uid : Nat) (sAct : UserSubscription)
    (h : findActiveSub st.subs uid = some sAct) :
    ((s.cancel now true).cancel_at_period_end = true ∧
     (s.cancel now true).auto_renew = false ∧
     (s.cancel now true).canceled_at = s.canceled_at ∧
     (s.cancel now true).status = s.status ∧
     (s.cancel now true).end_date = s.end_date) ∧
    ((s.cancel now false).status = SubscriptionStatus.CANCELED ∧
     (s.cancel now false).canceled_at = some now ∧
     (s.cancel now false).end_date = some now ∧
     (s.cancel now false).auto_renew = s.auto_renew ∧
     (s.cancel now false).cancel_at_period_end =
       s.cancel_at_period_end) ∧
    (∃ st2, cancelV3 st uid true now =
      .ok ({ sAct with cancel_at_period_end := true,
                       canceled_at := some now }, st2)) ∧
    (∃ st2, cancelV3 st uid false now =
      .ok ({ sAct with status := SubscriptionStatus.CANCELED,
                       canceled_at := some now,
                       end_date := some now }, st2)) := by
  refine ⟨?_, ?_, ?_, ?_⟩
  · simp [UserSubscription.cancel]
  · simp [UserSubscription.cancel]
  · exact ⟨{ st with
      subs := replaceSub st.subs
        { sAct with cancel_at_period_end := true,
                    canceled_at := some now },
      subscription_cache :=
        invalidate_subscription_cache st.subscription_cache uid,
      history_cache :=
        invalidate_subscription_history_cache st.history_cache uid },
      by simp [cancelV3, h]⟩
  · exact ⟨{ st with
      subs := replaceSub st.subs
        { sAct with status := SubscriptionStatus.CANCELED,
                    canceled_at := some now, end_date := some now },
      subscription_cache :=
        invalidate_subscription_cache st.subscription_cache uid,
      history_cache :=
        invalidate_subscription_history_cache st.history_cache uid },
      by simp [cancelV3, h]⟩

/-- C5 witness: the amended statement applied to the concrete state with
one stored-ACTIVE subscription. -/
theorem c5_cancel_spec_witness :
    ∃ st2, cancelV3 stEx 1 true 500 =
      .ok ({ subBase with cancel_at_period_end := true,
                          canceled_at := some 500 }, st2) :=
  (c5_cancel_spec subBase 500 stEx 1 subBase (by decide)).2.2.1

/-- Normal form of renew: the billing period is reset, status forced to
ACTIVE, and end_date pulled up to the new period end when it precedes
it. -/
theorem renew_eq (s : UserSubscription) (now days : Int) :
    s.renew now days =
      (let cpe : Int := now + days * secondsPerDay
       let base : UserSubscription :=
         { s with current_period_start := now,
                  current_period_end := some cpe,
                  status := SubscriptionStatus.ACTIVE }
       match s.end_date with
       | some e => if e < cpe then { base with end_date := some cpe }
                   else base
       | none => base) := by
  simp only [UserSubscription.renew]
  split_ifs with hst
  · cases h : s.end_date <;> simp [h]
  · push_neg at hst
    cases h : s.end_date <;> simp [h, hst]

/-- C6 counterexample: renew with days = 0 leaves
current_period_end equal to current_period_start, refuting the claimed
strict inequality for every renewal length. -/
theorem c6_counterexample :
    (subBase.renew 1000 0).current_period_start = 1000 ∧
    (subBase.renew 1000 0).current_period_end = some 1000 ∧
    ¬ ((1000 : Int) < 1000) := by decide

/-- C6 (amended): for every renewal length of at least one day, renew
sets current_period_start = now and current_period_end = now + days,
leaves current_period_end strictly after current_period_start, forces
status to ACTIVE whatever it was (including EXPIRED), extends end_date to
the new period end exactly when the existing end_date precedes it, and is
defined for every subscription including one whose end_date is already in
the past. -/
theorem c6_renew_spec (s : UserSubscription) (now days : Int)
    (hdays : 1 ≤ days) :
    (s.renew now days).current_period_start = now ∧
    (s.renew now days).current_period_end =
      some (now + days * secondsPerDay) ∧
    (s.renew now days).current_period_start <
      now + days * secondsPerDay ∧
    (s.renew now days).status = SubscriptionStatus.ACTIVE ∧
    (∀ e, s.end_date = some e → e < now + days * secondsPerDay →
      (s.renew now days).end_date = some (now + days * secondsPerDay)) ∧
    (∀ e, s.end_date = some e → ¬ e < now + days * secondsPerDay →
      (s.renew now days).end_date = some e) ∧
    (s.end_date = none → (s.renew now days).end_date = none) := by
  have hsec : (0 : Int) < secondsPerDay := by norm_num [secondsPerDay]
  have hpos : now < now + days * secondsPerDay := by
    have : (0 : Int) < days * secondsPerDay :=
      mul_pos (by linarith) hsec
    linarith
  rw [renew_eq]
  cases h : s.end_date with
  | none => simpa [h] using hpos
  | some e =>
    by_cases hlt : e < now + days * secondsPerDay <;>
      simp [h, hlt, hpos]

/-- C6 witness: the amended statement evaluated at 30 days on a concrete
EXPIRED subscription with an end_date already in the past. -/
theorem c6_renew_spec_witness :
    ({ subBase with status := SubscriptionStatus.EXPIRED,
                    end_date := some 10 }.renew 1000 30).status =
      SubscriptionStatus.ACTIVE ∧
    ({ subBase with status := SubscriptionStatus.EXPIRED,
                    end_date := some 10 }.renew 1000 30).end_date =
      some (1000 + 30 * secondsPerDay) := by
  have h := c6_renew_spec
    { subBase with status := SubscriptionStatus.EXPIRED,
                   end_date := some 10 } 1000 30 (by norm_num)
  exact ⟨h.2.2.2.1, h.2.2.2.2.1 10 rfl (by norm_num [secondsPerDay])⟩

/-- C7 counterexample: with user 1 holding a stored-ACTIVE subscription
on plan 1, the V3 delete still removes plan 1 (no active-subscription
check), refuting the claim that such a delete is always refused. -/
theorem c7_counterexample :
    stEx.subs.find? (fun s => s.plan_id == 1 &&
      s.status == SubscriptionStatus.ACTIVE) = some subBase ∧
    planDeleteV3 stEx 1 =
      .ok { stEx with plans := [planAnnual] } := by decide

theorem joinFirst_eq_none (subs : List UserSubscription)
    (plans : List SubscriptionPlan) (f : UserSubscription → Bool) :
    joinFirst subs plans f = none ↔
      ∀ s ∈ subs, f s = true → planFind plans s.plan_id = none := by
  induction subs with
  | nil => simp [joinFirst]
  | cons a l ih =>
    rw [joinFirst, List.findSome?_cons, List.forall_mem_cons]
    rw [joinFirst] at ih
    by_cases hfa : f a = true
    · cases hp : planFind plans a.plan_id with
      | none => simp [hfa, hp, ih]
      | some p => simp [hfa, hp]
    · have hfa2 : f a = false := by simpa using hfa
      simp [hfa2, ih]

theorem joinFirst_eq_some (subs : List UserSubscription)
    (plans : List SubscriptionPlan) (f : UserSubscription → Bool) :
    ∀ s p, joinFirst subs plans f = some (s, p) →
      s ∈ subs ∧ f s = true ∧ planFind plans s.plan_id = some p := by
  induction subs with
  | nil => intro s p h; simp [joinFirst] at h
  | cons a l ih =>
    intro s p h
    rw [joinFirst, List.findSome?_cons] at h
    by_cases hfa : f a = true
    · cases hp : planFind plans a.plan_id with
      | none =>
        simp only [hfa, if_true, hp, Option.map_none'] at h
        have h2 := ih s p (by rw [joinFirst]; exact h)
        exact ⟨List.mem_cons_of_mem a h2.1, h2.2⟩
      | some q =>
        simp only [hfa, if_true, hp, Option.map_some',
          Option.some.injEq, Prod.mk.injEq] at h
        obtain ⟨h1, h2⟩ := h
        subst h1; subst h2
        exact ⟨List.mem_cons_self a l, hfa, hp⟩
    · have hfa2 : f a = false := by simpa using hfa
      simp only [hfa2, Bool.false_eq_true, if_false] at h
      have h2 := ih s p (by rw [joinFirst]; exact h)
      exact ⟨List.mem_cons_of_mem a h2.1, h2.2⟩

/-- The active and trial raw-SQL filters are mutually exclusive: they
require different stored status strings. -/
theorem activeRowFilter_ne_trialRowFilter (uid : Nat) (now : Int)
    (s : UserSubscription) (ha : activeRowFilter uid now s = true)
    (ht : trialRowFilter uid now s = true) : False := by
  simp only [activeRowFilter, Bool.and_eq_true, beq_iff_eq] at ha
  simp only [trialRowFilter, Bool.and_eq_true, beq_iff_eq] at ht
  obtain ⟨⟨⟨-, hA⟩, -⟩, -⟩ := ha
  obtain ⟨⟨-, hT⟩, -⟩ := ht
  rw [hA] at hT
  exact absurd hT (by decide)

/-- findActiveSub finds a row exactly when the user has a subscription
whose stored status column is ACTIVE. -/
theorem findActiveSub_isSome (subs : List UserSubscription) (uid : Nat) :
    (findActiveSub subs uid).isSome = true ↔
      ∃ s ∈ subs, s.user_id = uid ∧
        s.status = SubscriptionStatus.ACTIVE := by
  simp [findActiveSub, List.find?_isSome, Bool.and_eq_true, beq_iff_eq,
    and_assoc]

/-- C8 counterexample: user 1 holds only a valid TRIAL subscription; the
raw-SQL helper falls back to it, but the V3 active-subscription endpoint
returns a 404 instead of the trial, refuting the claimed fallback for
that cited implementation. -/
theorem c8_counterexample :
    get_user_active_subscription stTrial.subs stTrial.plans 1 1000 =
      some (trialSub, planMonthly) ∧
    UserSubscription.is_trial trialSub 1000 = true ∧
    activeGetV3 stTrial 1 1000 =
      .error (.notFound msgNoActiveSubscription) := by decide

/-- C8 (amended): the raw-SQL helper get_user_active_subscription (and
the src model classmethod, which runs the same two filters) returns a
subscription joined with its plan satisfying the dated ACTIVE filter or,
only when no joinable row satisfies the ACTIVE filter, the valid-TRIAL
filter, and returns not-found (none) exactly when no joinable row
satisfies either filter; the V3 active endpoint instead serves only a
stored-status-ACTIVE row and reports not-found without any trial
fallback. -/
theorem c8_active_subscription_spec (subs : List UserSubscription)
    (plans : List SubscriptionPlan) (uid : Nat) (now : Int)
    (st : V3State) :
    (∀ s p, get_user_active_subscription subs plans uid now =
        some (s, p) →
      s ∈ subs ∧ planFind plans s.plan_id = some p ∧
      (activeRowFilter uid now s = true ∨
        trialRowFilter uid now s = true)) ∧
    (∀ s p, get_user_active_subscription subs plans uid now =
        some (s, p) →
      trialRowFilter uid now s = true →
      ∀ t ∈ subs, activeRowFilter uid now t = true →
        planFind plans t.plan_id = none) ∧
    (get_user_active_subscription subs plans uid now = none ↔
      ∀ s ∈ subs, (planFind plans s.plan_id).isSome = true →
        activeRowFilter uid now s = false ∧
        trialRowFilter uid now s = false) ∧
    (st.subscription_cache = [] → findActiveSub st.subs uid = none →
      activeGetV3 st uid now =
        .error (.notFound msgNoActiveSubscription)) := by
  refine ⟨?_, ?_, ?_, ?_⟩
  · intro s p h
    unfold get_user_active_subscription at h
    cases hA : joinFirst subs plans (activeRowFilter uid now) with
    | some r =>
      rw [hA] at h
      obtain rfl : r = (s, p) := by injection h
      have h2 := joinFirst_eq_some subs plans (activeRowFilter uid now)
        s p hA
      exact ⟨h2.1, h2.2.2, Or.inl h2.2.1⟩
    | none =>
      rw [hA] at h
      have h2 := joinFirst_eq_some subs plans (trialRowFilter uid now)
        s p h
      exact ⟨h2.1, h2.2.2, Or.inr h2.2.1⟩
  · intro s p h htr t htmem hta
    unfold get_user_active_subscription at h
    cases hA : joinFirst subs plans (activeRowFilter uid now) with
    | some r =>
      rw [hA] at h
      obtain rfl : r = (s, p) := by injection h
      have h2 := joinFirst_eq_some subs plans (activeRowFilter uid now)
        s p hA
      exact absurd htr (by
        intro hcon
        exact activeRowFilter_ne_trialRowFilter uid now s h2.2.1 hcon)
    | none =>
      exact (joinFirst_eq_none subs plans
        (activeRowFilter uid now)).mp hA t htmem hta
  · unfold get_user_active_subscription
    cases hA : joinFirst subs plans (activeRowFilter uid now) with
    | some r =>
      have h2 := joinFirst_eq_some subs plans (activeRowFilter uid now)
        r.1 r.2 (by simpa using hA)
      simp only [iff_false_intro]
      constructor
      · intro hcon; cases hcon
      · intro hall
        have h3 := hall r.1 h2.1 (by rw [h2.2.2]; rfl)
        rw [h2.2.1] at h3
        cases h3.1
    | none =>
      have hAn := (joinFirst_eq_none subs plans
        (activeRowFilter uid now)).mp hA
      rw [joinFirst_eq_none]
      constructor
      · intro hT s hmem hplan
        constructor
        · cases hfa : activeRowFilter uid now s with
          | false => rfl
          | true =>
            rw [hAn s hmem hfa] at hplan
            cases hplan
        · cases hft : trialRowFilter uid now s with
          | false => rfl
          | true =>
            rw [hT s hmem hft] at hplan
            cases hplan
      · intro hall s hmem hft
        cases hplan : planFind plans s.plan_id with
        | none => rfl
        | some q =>
          have := (hall s hmem (by rw [hplan]; rfl)).2
          rw [hft] at this
          cases this
  · intro h1 h2
    simp [activeGetV3, get_cached_active_subscription, h1, h2]

/-- C8 witness: the amended statement applied to the concrete state where
user 1 holds only a valid trial subscription. -/
theorem c8_active_subscription_spec_witness :
    activeGetV3 stTrial 1 1000 =
      .error (.notFound msgNoActiveSubscription) :=
  (c8_active_subscription_spec stTrial.subs stTrial.plans 1 1000
    stTrial).2.2.2 rfl (by decide)

/-- C2 counterexample: a successful trial subscribe (trial_days = 14)
through the unversioned route yields status TRIAL and the right
trial_end_date but payment_status PAID, not PENDING and not any
trial-specific marker, refuting the claimed payment status. -/
theorem c2_counterexample :
    subscribeV2 [planMonthly] [] [1] 1 1 14 1 true nowDT 10 =
      .ok { id := 10, user_id := 1, plan_id := 1,
            status := SubscriptionStatus.TRIAL,
            start_date := nowDT.toEpoch,
            end_date := some (calendarPeriodEnd nowDT 1).toEpoch,
            trial_end_date :=
              some (nowDT.toEpoch + 14 * secondsPerDay),
            canceled_at := none,
            current_period_start := nowDT.toEpoch,
            current_period_end :=
              some (calendarPeriodEnd nowDT 1).toEpoch,
            payment_status := PaymentStatus.PAID,
            quantity := 1, cancel_at_period_end := false,
            auto_renew := true, subscription_metadata := none,
            created_at := nowDT.toEpoch } ∧
    PaymentStatus.PAID ≠ PaymentStatus.PENDING := by decide

/-- C2 (amended): in the only route where a trial subscribe succeeds (the
unversioned one), the created subscription has status TRIAL (hence not
ACTIVE) and trial_end_date = now + trialDays days, but payment_status
PAID; the V1 route never returns a subscription for trialDays > 0 (it
evaluates the nonexistent PaymentStatus.TRIAL member, besides building
the row with status ACTIVE), and the V3 route never returns one either
(it evaluates the nonexistent SubscriptionStatus.TRIALING member). -/
theorem c2_trial_subscribe_spec (plans : List SubscriptionPlan)
    (subs : List UserSubscription) (users : List Nat)
    (uid plan_id : Nat) (trial_days : Int) (quantity : Nat)
    (auto_renew : Bool) (nd : PyDateTime) (now : Int) (newId : Nat)
    (st : V3State) (htd : 0 < trial_days) :
    (∀ sub, subscribeV2 plans subs users uid plan_id trial_days quantity
        auto_renew nd newId = .ok sub →
      sub.status = SubscriptionStatus.TRIAL ∧
      sub.status ≠ SubscriptionStatus.ACTIVE ∧
      sub.trial_end_date =
        some (nd.toEpoch + trial_days * secondsPerDay) ∧
      sub.payment_status = PaymentStatus.PAID) ∧
    (∀ sub, subscribeV1 plans subs uid plan_id trial_days quantity
        auto_renew now newId ≠ .ok sub) ∧
    (∀ r, subscribeV3 st uid plan_id trial_days auto_renew now ≠
      .ok r) := by
  refine ⟨?_, ?_, ?_⟩
  · intro sub h
    cases hp : planFind plans plan_id with
    | none => simp [subscribeV2, hp] at h
    | some plan =>
      simp only [subscribeV2, hp, decide_eq_true htd,
        eq_self_iff_true, if_true] at h
      split_ifs at h <;>
        (injection h with hrec
         subst hrec
         refine ⟨rfl, ?_, rfl, rfl⟩
         simp [SubscriptionStatus.TRIAL, SubscriptionStatus.ACTIVE])
  · intro sub h
    cases hp : planFind plans plan_id with
    | none => simp [subscribeV1, hp] at h
    | some plan =>
      simp only [subscribeV1, hp] at h
      split_ifs at h
      omega
  · intro r h
    cases hp : st.plans.find? (fun p => p.id == plan_id &&
        p.status == PlanStatus.ACTIVE) with
    | none => simp [subscribeV3, hp] at h
    | some plan =>
      simp only [subscribeV3, hp] at h
      split_ifs at h

/-- C2 witness: the amended statement applied at trial_days = 14 on
concrete stores; the V1 route returns no subscription for that call. -/
theorem c2_trial_subscribe_spec_witness :
    subscribeV1 [planMonthly] [] 1 1 14 1 true 1000 10 ≠
      .ok subV1New :=
  (c2_trial_subscribe_spec [planMonthly] [] [1] 1 1 14 1 true nowDT 1000
    10 stTrial (by norm_num)).2.1 subV1New

/-- C3 counterexample: user 1 holds a valid (unexpired) TRIAL
subscription at instant 1000, and a V1 subscribe for the same user still
succeeds and creates a second subscription, instead of failing with the
duplicate-subscription error. -/
theorem c3_counterexample :
    UserSubscription.is_trial trialSub 1000 = true ∧
    subscribeV1 [planMonthly] [trialSub] 1 1 0 1 true 1000 10 =
      .ok subV1New := by decide

/-- C3 (amended): a subscribe on an existing active plan fails with the
duplicate-subscription error exactly when the user already holds a
subscription whose stored status column is ACTIVE, in both the V1 and V3
routes; a user who holds no stored-ACTIVE subscription (in particular a
user holding only a valid TRIAL subscription) is not refused: a non-trial
subscribe returns a new subscription. -/
theorem c3_duplicate_check_spec (plans : List SubscriptionPlan)
    (subs : List UserSubscription) (uid plan_id : Nat)
    (trial_days : Int) (quantity : Nat) (auto_renew : Bool) (now : Int)
    (newId : Nat) (plan plan3 : SubscriptionPlan) (st : V3State)
    (hp : planFind plans plan_id = some plan)
    (hact : plan.status = PlanStatus.ACTIVE)
    (hp3 : st.plans.find? (fun p => p.id == plan_id &&
      p.status == PlanStatus.ACTIVE) = some plan3) :
    (subscribeV1 plans subs uid plan_id trial_days quantity auto_renew
        now newId = .error (.badRequest msgDuplicateV1) ↔
      ∃ s ∈ subs, s.user_id = uid ∧
        s.status = SubscriptionStatus.ACTIVE) ∧
    (subscribeV3 st uid plan_id trial_days auto_renew now =
        .error (.badRequest msgDuplicateV1) ↔
      ∃ s ∈ st.subs, s.user_id = uid ∧
        s.status = SubscriptionStatus.ACTIVE) ∧
    ((∀ s ∈ subs, ¬ (s.user_id = uid ∧
        s.status = SubscriptionStatus.ACTIVE)) → trial_days = 0 →
      subscribeV1 plans subs uid plan_id trial_days quantity auto_renew
        now newId =
        .ok { id := newId, user_id := uid, plan_id := plan.id,
              status := SubscriptionStatus.ACTIVE, start_date := now,
              end_date := none, trial_end_date := none,
              canceled_at := none, current_period_start := now,
              current_period_end := some (now +
                interval_period_days plan.interval * secondsPerDay),
              payment_status := PaymentStatus.PAID,
              quantity := quantity, cancel_at_period_end := false,
              auto_renew := auto_renew, subscription_metadata := none,
              created_at := now }) := by
  have hiff1 := findActiveSub_isSome subs uid
  have hiff3 := findActiveSub_isSome st.subs uid
  refine ⟨?_, ?_, ?_⟩
  · by_cases hd : (findActiveSub subs uid).isSome = true
    · constructor
      · intro _; exact hiff1.mp hd
      · intro _; simp [subscribeV1, hp, hact, hd]
    · constructor
      · intro hEq
        exfalso
        by_cases ht0 : trial_days = 0 <;>
          simp [subscribeV1, hp, hact, hd, ht0, msgInactivePlanV1,
            msgDuplicateV1] at hEq
      · intro hex
        exact absurd (hiff1.mpr hex) hd
  · by_cases hd : (findActiveSub st.subs uid).isSome = true
    · constructor
      · intro _; exact hiff3.mp hd
      · intro _; simp [subscribeV3, hp3, hd]
    · constructor
      · intro hEq
        exfalso
        by_cases htd : 0 < trial_days <;>
          simp [subscribeV3, hp3, hd, htd] at hEq
      · intro hex
        exact absurd (hiff3.mpr hex) hd
  · intro hnone ht0
    have hd : (findActiveSub subs uid).isSome = false := by
      have hne : ¬ (findActiveSub subs uid).isSome = true := by
        intro hs
        obtain ⟨s, hsmem, h1, h2⟩ := hiff1.mp hs
        exact hnone s hsmem ⟨h1, h2⟩
      simpa using hne
    simp [subscribeV1, hp, hact, hd, ht0]

/-- C3 witness: the amended statement applied to concrete stores: the
duplicate error fires for the user holding a stored-ACTIVE
subscription. -/
theorem c3_duplicate_check_spec_witness :
    subscribeV1 [planMonthly] [subBase] 1 1 0 1 true 1000 10 =
      .error (.badRequest msgDuplicateV1) :=
  (c3_duplicate_check_spec [planMonthly] [subBase] 1 1 0 1 true 1000 10
    planMonthly planMonthly stEx (by decide) (by decide)
    (by decide)).1.mpr ⟨subBase, by simp, rfl, rfl⟩

/-- C4 counterexample: the V3 route subscribes user 1 to the ACTIVE
annual plan (duration_months = 12) and computes current_period_end as
now + 360 days instead of the claimed now + 365 days. -/
theorem c4_counterexample :
    planAnnual.interval = SubscriptionInterval.ANNUAL ∧
    planAnnual.status = PlanStatus.ACTIVE ∧
    (subscribeV3 stTrial 1 2 0 true 1000).toOption.map
        (fun r => r.1.current_period_end) =
      some (some (1000 + 360 * secondsPerDay)) ∧
    (1000 + 360 * secondsPerDay : Int) ≠
      1000 + 365 * secondsPerDay := by decide

/-- C4 (amended): every successful non-trial subscribe sets
start_date = current_period_start = now; the V1 route computes
current_period_end from the plan interval with the table monthly 30,
quarterly 90, semi-annual 182, annual 365 (default 30), while the V3
route computes it as now + 30 * duration_months days. -/
theorem c4_period_spec (plans : List SubscriptionPlan)
    (subs : List UserSubscription) (uid plan_id : Nat) (quantity : Nat)
    (auto_renew : Bool) (now : Int) (newId : Nat)
    (plan plan3 : SubscriptionPlan) (st : V3State)
    (hp : planFind plans plan_id = some plan)
    (hp3 : st.plans.find? (fun p => p.id == plan_id &&
      p.status == PlanStatus.ACTIVE) = some plan3) :
    (∀ sub, subscribeV1 plans subs uid plan_id 0 quantity auto_renew now
        newId = .ok sub →
      sub.start_date = now ∧ sub.current_period_start = now ∧
      sub.current_period_end = some (now +
        interval_period_days plan.interval * secondsPerDay)) ∧
    interval_period_days SubscriptionInterval.MONTHLY = 30 ∧
    interval_period_days SubscriptionInterval.QUARTERLY = 90 ∧
    interval_period_days SubscriptionInterval.SEMI_ANNUAL = 182 ∧
    interval_period_days SubscriptionInterval.ANNUAL = 365 ∧
    (∀ r, subscribeV3 st uid plan_id 0 auto_renew now = .ok r →
      r.1.start_date = now ∧ r.1.current_period_start = now ∧
      r.1.current_period_end = some (now +
        30 * plan3.duration_months * secondsPerDay)) := by
  refine ⟨?_, by decide, by decide, by decide, by decide, ?_⟩
  · intro sub h
    simp only [subscribeV1, hp] at h
    split_ifs at h <;>
      (injection h with hrec
       subst hrec
       exact ⟨rfl, rfl, rfl⟩)
  · intro r h
    simp only [subscribeV3, hp3] at h
    split_ifs at h
    injection h with hrec
    subst hrec
    exact ⟨rfl, rfl, rfl⟩

/-- C4 witness: the amended statement applied to the concrete monthly
plan subscribe. -/
theorem c4_period_spec_witness :
    subV1New.start_date = 1000 ∧
    subV1New.current_period_start = 1000 ∧
    subV1New.current_period_end = some (1000 +
      interval_period_days planMonthly.interval * secondsPerDay) :=
  (c4_period_spec [planMonthly] [trialSub] 1 1 1 true 1000 10
    planMonthly planMonthly stTrial (by decide) (by decide)).1
    subV1New (by decide)

/-- C9: each successful V3 subscription mutation (subscribe, upgrade,
cancel) returns a state whose per-user active-subscription and
subscription-history cache dictionaries hold no entry for the user, so a
subsequent cached read misses; each plan mutation (create, update,
delete) returns a state with an empty plan-list cache; and an
active-subscription read against a state with no cache entry for the
user is computed from the database of that state, never from a cache. -/
theorem c9_cache_invalidation (st : V3State)
    (uid plan_id new_plan_id delId updId : Nat) (trial_days : Int)
    (auto_renew ape : Bool) (now : Int) (b : PlanCreate)
    (u : PlanUpdate) :
    (∀ sub st2, subscribeV3 st uid plan_id trial_days auto_renew now =
        .ok (sub, st2) →
      userCachesCleared st2 uid ∧
      ∀ t, get_cached_active_subscription st2.subscription_cache uid t =
        none) ∧
    (∀ sub st2, upgradeV3 st uid new_plan_id = .ok (sub, st2) →
      userCachesCleared st2 uid ∧
      ∀ t, get_cached_active_subscription st2.subscription_cache uid t =
        none) ∧
    (∀ sub st2, cancelV3 st uid ape now = .ok (sub, st2) →
      userCachesCleared st2 uid ∧
      ∀ t, get_cached_active_subscription st2.subscription_cache uid t =
        none) ∧
    (planCreateV3 st b).2.plan_list_cache = [] ∧
    (∀ p st2, planUpdateV3 st updId u = .ok (p, st2) →
      st2.plan_list_cache = []) ∧
    (∀ st2, planDeleteV3 st delId = .ok st2 →
      st2.plan_list_cache = []) ∧
    (∀ key t, (get_cached_plan_list
      ([] : List (String × CacheEntry (List SubscriptionPlan)))
      key t).1 = none) ∧
    (∀ st2 : V3State, (∀ e ∈ st2.subscription_cache, e.1 ≠ uid) →
      ∀ t, activeGetV3 st2 uid t = activeGetFresh st2 uid t) := by
  have hclear : ∀ (c : List (Nat × CacheEntry UserSubscription)),
      ∀ e ∈ invalidate_subscription_cache c uid, e.1 ≠ uid := by
    intro c e he
    have := List.of_mem_filter he
    simpa using this
  have hclearH :
      ∀ (c : List ((Nat × String) × CacheEntry (List UserSubscription))),
      ∀ e ∈ invalidate_subscription_history_cache c uid, e.1.1 ≠ uid := by
    intro c e he
    have := List.of_mem_filter he
    simpa using this
  have hmiss : ∀ (c : List (Nat × CacheEntry UserSubscription)),
      (∀ e ∈ c, e.1 ≠ uid) →
      ∀ t, get_cached_active_subscription c uid t = none := by
    intro c hc t
    unfold get_cached_active_subscription
    cases hf : c.find? (fun e => e.1 == uid) with
    | none => rfl
    | some e =>
      have hmem := List.mem_of_find?_eq_some hf
      have hpe := List.find?_some hf
      exact absurd (by simpa using hpe) (hc e hmem)
  refine ⟨?_, ?_, ?_, ?_, ?_, ?_, ?_, ?_⟩
  · intro sub st2 h
    cases hp : st.plans.find? (fun p => p.id == plan_id &&
        p.status == PlanStatus.ACTIVE) with
    | none => simp [subscribeV3, hp] at h
    | some plan =>
      simp only [subscribeV3, hp] at h
      split_ifs at h <;>
        (injection h with hrec
         injection hrec with hsub hst
         subst hst
         exact ⟨⟨hclear _, hclearH _⟩, hmiss _ (hclear _)⟩)
  · intro sub st2 h
    cases ha : findActiveSub st.subs uid with
    | none => simp [upgradeV3, ha] at h
    | some s =>
      cases hp : st.plans.find? (fun p => p.id == new_plan_id &&
          p.status == PlanStatus.ACTIVE) with
      | none => simp [upgradeV3, ha, hp] at h
      | some plan =>
        simp only [upgradeV3, ha, hp] at h
        split_ifs at h
        injection h with hrec
        injection hrec with hsub hst
        subst hst
        exact ⟨⟨hclear _, hclearH _⟩, hmiss _ (hclear _)⟩
  · intro sub st2 h
    cases ha : findActiveSub st.subs uid with
    | none => simp [cancelV3, ha] at h
    | some s =>
      simp only [cancelV3, ha] at h
      injection h with hrec
      injection hrec with hsub hst
      subst hst
      exact ⟨⟨hclear _, hclearH _⟩, hmiss _ (hclear _)⟩
  · rfl
  · intro p st2 h
    cases hp : planFind st.plans updId with
    | none => simp [planUpdateV3, hp] at h
    | some q =>
      simp only [planUpdateV3, hp] at h
      injection h with hrec
      injection hrec with hplan hst
      subst hst
      rfl
  · intro st2 h
    cases hp : planFind st.plans delId with
    | none => simp [planDeleteV3, hp] at h
    | some q =>
      simp only [planDeleteV3, hp] at h
      injection h with hst
      subst hst
      rfl
  · intro key t
    rfl
  · intro st2 hc t
    unfold activeGetV3 activeGetFresh
    rw [hmiss st2.subscription_cache hc t]

/-- C9 witness: cancelV3 applied to the concrete state with warm cache
entries for user 1 leaves both per-user caches with no entry for the
user. -/
theorem c9_cache_invalidation_witness :
    userCachesCleared stCancelResult 1 ∧
    (∀ t, get_cached_active_subscription
      stCancelResult.subscription_cache 1 t = none) :=
  (c9_cache_invalidation stCached 1 1 2 1 1 0 true true 500
    planCreateBody planUpdateBody).2.2.1 subCanceledPE stCancelResult
    (by decide)

/-- C7 (amended): the unversioned (V2) plan delete refuses with the
has-active-subscriptions error, keeping the plan, exactly when some
subscription referencing the plan has stored status ACTIVE, and removes
the plan (keeping every other plan) otherwise; the V3 plan delete
removes a stored plan unconditionally, with no check of the
subscriptions referencing it. -/
theorem c7_plan_delete_spec (plans : List SubscriptionPlan)
    (subs : List UserSubscription) (id : Nat) (p : SubscriptionPlan)
    (st : V3State) (q : SubscriptionPlan)
    (hp : planFind plans id = some p)
    (hq : planFind st.plans id = some q) :
    ((subs.find? (fun s => s.plan_id == id &&
        s.status == SubscriptionStatus.ACTIVE)).isSome = true →
      planDeleteV2 plans subs id =
        .error (.badRequest msgDeleteWithActive)) ∧
    ((subs.find? (fun s => s.plan_id == id &&
        s.status == SubscriptionStatus.ACTIVE)).isSome = false →
      ∃ remaining, planDeleteV2 plans subs id = .ok remaining ∧
        (∀ r ∈ remaining, r.id ≠ id) ∧
        (∀ r ∈ plans, r.id ≠ id → r ∈ remaining)) ∧
    (∃ st2, planDeleteV3 st id = .ok st2 ∧
      (∀ r ∈ st2.plans, r.id ≠ id) ∧
      (∀ r ∈ st.plans, r.id ≠ id → r ∈ st2.plans) ∧
      st2.plan_list_cache = []) := by
  refine ⟨?_, ?_, ?_⟩
  · intro hact
    simp [planDeleteV2, hp, hact]
  · intro hact
    refine ⟨plans.filter (fun r => r.id ≠ id), ?_, ?_, ?_⟩
    · simp [planDeleteV2, hp, hact]
    · intro r hr
      simpa using (List.mem_filter.mp hr).2
    · intro r hr hne
      exact List.mem_filter.mpr ⟨hr, by simpa using hne⟩
  · refine ⟨{ st with
        plans := st.plans.filter (fun r => r.id ≠ id),
        plan_list_cache := [] }, ?_, ?_, ?_, rfl⟩
    · simp [planDeleteV3, hq, invalidate_plan_list_cache]
    · intro r hr
      simpa using (List.mem_filter.mp hr).2
    · intro r hr hne
      exact List.mem_filter.mpr ⟨hr, by simpa using hne⟩

/-- C7 witness: the amended statement applied to concrete stores where
plan 1 carries a stored-ACTIVE subscription: the V2 delete refuses. -/
theorem c7_plan_delete_spec_witness :
    planDeleteV2 [planMonthly, planAnnual] [subBase] 1 =
      .error (.badRequest msgDeleteWithActive) :=
  (c7_plan_delete_spec [planMonthly, planAnnual] [subBase] 1
    planMonthly stEx planMonthly (by decide) (by decide)).1 (by decide)
